import Mathlib

/-!
Verification development for the Rparadox marshalling layer
(src/init.c, src/interface.c, src/px_encode.c, src/px_error.c).

The definitions below are a shallow embedding of the C interface layer
in src/interface.c: handle lifecycle (external pointer plus finalizer),
password validation during open, the field-type to column-type switch of
pxlib_get_data_c, and the per-value decoder px_to_sexp.  C doubles are
modelled as rationals (all the arithmetic performed by the code on
date, time and timestamp values is exact in this range), C long values
as unbounded integers, byte buffers as lists of naturals where a C
NULL pointer is Option.none, and undefined behaviour (dereferencing a
null pointer) is made explicit through an Except error.  Calls into the
pxlib backend and into the R runtime are the opaque collaborators of
the layer; where one of their facts is needed (field type codes from
paradox.h, the element width of an R INTSXP vector) it is modelled from
the collaborator's published interface and documented at the definition.
-/

namespace Rparadox

/-- Paradox field-type codes, modelled from the pxlib backend header
paradox.h (external collaborator of this package); interface.c
dispatches on these values. -/
abbrev pxfAlpha : Nat := 1

abbrev pxfDate : Nat := 2

abbrev pxfShort : Nat := 3

abbrev pxfLong : Nat := 4

abbrev pxfCurrency : Nat := 5

abbrev pxfNumber : Nat := 6

abbrev pxfLogical : Nat := 9

abbrev pxfMemoBLOb : Nat := 12

abbrev pxfBLOb : Nat := 13

abbrev pxfFmtMemoBLOb : Nat := 14

abbrev pxfOLE : Nat := 15

abbrev pxfGraphic : Nat := 16

abbrev pxfTime : Nat := 20

abbrev pxfTimestamp : Nat := 21

abbrev pxfAutoInc : Nat := 22

abbrev pxfBCD : Nat := 23

abbrev pxfBytes : Nat := 24

/-- The string/byte part of a pxval_t: the buffer pointer
(value.str.val, none for a C NULL pointer; the list holds the bytes of
the allocation) and the explicit length field (value.str.len). -/
structure PxStr where
  val : Option (List Nat)
  len : Nat
  deriving DecidableEq

/-- A raw typed value pxval_t produced by PX_retrieve_record: the
explicit null flag, the long member (lval), the double member (dval,
modelled as a rational) and the string/byte member.  The C union is
modelled as a product; each decode branch reads exactly one member,
as in the source. -/
structure PxVal where
  isnull : Bool
  lval : Int
  dval : ℚ
  str : PxStr
  deriving DecidableEq

/-- Scalar R values produced by px_to_sexp: R_NilValue, NA_STRING, a
CHARSXP built by mkChar/mkCharLen, a raw vector, and the integer, real
and logical scalars. -/
inductive RVal where
  | nil
  | naString
  | charsxp (bytes : List Nat)
  | rawvec (bytes : List Nat)
  | intScalar (i : Int)
  | realScalar (q : ℚ)
  | lglScalar (i : Int)
  deriving DecidableEq

/-- Abnormal exits of the decoder made explicit.  nullDeref is
undefined behaviour: strcmp, mkCharLen or memcpy dereferencing a NULL
value.str.val.  embeddedNulError is the error R raises inside mkCharLen
when a zero byte lies within the requested length (R character data
cannot hold embedded nul bytes), a longjmp that leaves px_to_sexp
before the pxdoc free call that follows the mkCharLen call; its payload
records how many releases of value.str.val had been performed when the
error fired (always zero, since on these paths the raise precedes the
release, so the buffer leaks). -/
inductive PxAbort where
  | nullDeref
  | embeddedNulError (frees : Nat)
  deriving DecidableEq

/-- Result of one px_to_sexp call: the produced R value, the number of
times pxdoc free was called on value.str.val, and whether Rf_warning
was emitted (the default arm of the switch). -/
structure DecodeOut where
  val : RVal
  frees : Nat
  warned : Bool
  deriving DecidableEq

/-- Bytes of a C string as read by strlen-based functions (mkChar,
strcmp): the buffer up to the first zero byte. -/
def cstr (l : List Nat) : List Nat := l.takeWhile (fun b => b != 0)

/-- The all-blank BCD sentinel string compared against in the pxfBCD
arm of px_to_sexp (interface.c line 380). -/
def bcdBlankSentinel : List Nat :=
  ("-??????????????????????????.??????".data.map Char.toNat)

/-- Two's-complement narrowing of a C long to a C int, performed
implicitly at the ScalarInteger and ScalarLogical call sites of
px_to_sexp (their parameter type is int while value.lval is long). -/
def wrap32 (x : Int) : Int := (x + 2 ^ 31) % 2 ^ 32 - 2 ^ 31

/-- Shallow embedding of px_to_sexp (interface.c lines 365-451): the
per-(record, field) value decoder.  mkChar is modelled as reading up to
the first zero byte; mkCharLen as reading exactly value.str.len bytes
of the allocation and raising the host's embedded-nul error when one of
those bytes is zero — that raise happens inside mkCharLen, before the
pxdoc free on the following line, so those paths perform zero releases.
pxdoc free calls on value.str.val are counted in the frees field of the
result. -/
def px_to_sexp (v : PxVal) (t : Nat) : Except PxAbort DecodeOut :=
  if v.isnull then Except.ok ⟨RVal.nil, 0, false⟩
  else if t = pxfAlpha then
    match v.str.val with
    | none => Except.ok ⟨RVal.naString, 0, false⟩
    | some buf => Except.ok ⟨RVal.charsxp (cstr buf), 1, false⟩
  else if t = pxfBCD then
    match v.str.val with
    | none => Except.error PxAbort.nullDeref
    | some buf =>
      if cstr buf = bcdBlankSentinel then Except.ok ⟨RVal.nil, 1, false⟩
      else Except.ok ⟨RVal.charsxp (cstr buf), 1, false⟩
  else if t = pxfMemoBLOb ∨ t = pxfFmtMemoBLOb then
    match v.str.val with
    | none => Except.ok ⟨RVal.nil, 0, false⟩
    | some buf =>
      if (buf.take v.str.len).contains 0 then Except.error (PxAbort.embeddedNulError 0)
      else Except.ok ⟨RVal.charsxp (buf.take v.str.len), 1, false⟩
  else if t = pxfBytes then
    match v.str.val with
    | none => Except.error PxAbort.nullDeref
    | some buf =>
      if (buf.take v.str.len).contains 0 then Except.error (PxAbort.embeddedNulError 0)
      else Except.ok ⟨RVal.charsxp (buf.take v.str.len), 1, false⟩
  else if t = pxfBLOb ∨ t = pxfGraphic ∨ t = pxfOLE then
    if v.str.len = 0 then
      match v.str.val with
      | none => Except.ok ⟨RVal.nil, 0, false⟩
      | some _ => Except.ok ⟨RVal.nil, 1, false⟩
    else
      match v.str.val with
      | none => Except.error PxAbort.nullDeref
      | some buf => Except.ok ⟨RVal.rawvec (buf.take v.str.len), 1, false⟩
  else if t = pxfShort ∨ t = pxfLong ∨ t = pxfAutoInc then
    Except.ok ⟨RVal.intScalar (wrap32 v.lval), 0, false⟩
  else if t = pxfNumber ∨ t = pxfCurrency then
    Except.ok ⟨RVal.realScalar v.dval, 0, false⟩
  else if t = pxfLogical then
    Except.ok ⟨RVal.lglScalar (wrap32 v.lval), 0, false⟩
  else if t = pxfDate then
    if v.lval ≤ 0 ∨ v.lval > 3000000 then Except.ok ⟨RVal.nil, 0, false⟩
    else Except.ok ⟨RVal.realScalar ((v.lval : ℚ) - 719163), 0, false⟩
  else if t = pxfTime then
    if v.lval < 0 then Except.ok ⟨RVal.nil, 0, false⟩
    else Except.ok ⟨RVal.realScalar ((v.lval : ℚ) / 1000), 0, false⟩
  else if t = pxfTimestamp then
    if v.dval = 0 ∨ v.dval / 1000 < 0 then Except.ok ⟨RVal.nil, 0, false⟩
    else Except.ok ⟨RVal.realScalar (v.dval / 1000 - 719163 * 86400), 0, false⟩
  else
    Except.ok ⟨RVal.nil, 0, true⟩

/-- The five R vector types allocated by the column switch of
pxlib_get_data_c. -/
inductive SEXPType where
  | VECSXP
  | INTSXP
  | REALSXP
  | LGLSXP
  | STRSXP
  deriving DecidableEq

/-- Shallow embedding of the column-allocation switch of
pxlib_get_data_c (interface.c lines 261-285): one R vector type per
Paradox field type, with unrecognized codes falling into the default
arm shared with the text types. -/
def column_sexptype (t : Nat) : SEXPType :=
  if t = pxfBLOb ∨ t = pxfOLE ∨ t = pxfGraphic ∨ t = pxfBytes then SEXPType.VECSXP
  else if t = pxfShort ∨ t = pxfLong ∨ t = pxfAutoInc then SEXPType.INTSXP
  else if t = pxfNumber ∨ t = pxfCurrency ∨ t = pxfDate ∨ t = pxfTime ∨ t = pxfTimestamp then
    SEXPType.REALSXP
  else if t = pxfLogical then SEXPType.LGLSXP
  else SEXPType.STRSXP

/-- Element width in bits of the R vector types holding fixed-width
scalars, modelled from the R C API (host collaborator): INTEGER() and
LOGICAL() expose C int elements (32 bits), REAL() exposes C double
elements (64 bits); list and character vectors hold boxed elements. -/
def SEXPType.elemBits : SEXPType → Option Nat
  | SEXPType.INTSXP => some 32
  | SEXPType.LGLSXP => some 32
  | SEXPType.REALSXP => some 64
  | _ => none

/-- One filled cell of a column, from the placement switch of
pxlib_get_data_c (interface.c lines 300-313): binary-list columns store
the decoded value itself, the scalar columns store NA when the decoder
returned R_NilValue and the scalar otherwise. -/
inductive Cell where
  | vecElem (v : RVal)
  | naElem
  | scalarElem (v : RVal)
  deriving DecidableEq

/-- Placement of one decoded value into a column of the given type
(interface.c lines 300-313).  The asInteger, asReal and asLogical
coercions are identities on the scalars produced by px_to_sexp for a
matching column type. -/
def place_value (ty : SEXPType) (r : RVal) : Cell :=
  match ty with
  | SEXPType.VECSXP => Cell.vecElem r
  | _ => if r = RVal.nil then Cell.naElem else Cell.scalarElem r

/-- Addresses held by the external pointer; an open pxdoc_t is
identified by its address. -/
abbrev Doc := Nat

/-- Error message raised by check_pxdoc_ptr (interface.c lines 462-468). -/
def invalidHandleMsg : String :=
  "The Paradox file connection is closed or invalid. Please use a valid object from pxlib_open_file()."

/-- Shallow embedding of check_pxdoc_ptr (interface.c lines 462-468):
the state of the external pointer is its stored address, none once
R_ClearExternalPtr has run; a cleared or invalid pointer raises. -/
def check_pxdoc_ptr (h : Option Doc) : Except String Doc :=
  match h with
  | none => Except.error invalidHandleMsg
  | some d => Except.ok d

/-- Shallow embedding of pxlib_close_file_c (interface.c lines 61-69):
validates the pointer through check_pxdoc_ptr, then calls PX_delete and
clears the pointer.  The result is the new pointer state together with
the number of PX_delete calls performed, or the raised error. -/
def pxlib_close_file_c (h : Option Doc) : Except String (Option Doc × Nat) :=
  match check_pxdoc_ptr h with
  | Except.error e => Except.error e
  | Except.ok _ => Except.ok (none, 1)

/-- Shallow embedding of pxdoc_finalizer (interface.c lines 38-50): the
garbage-collector path checks the stored address itself and does
nothing when it is already cleared.  The result is the new pointer
state together with the number of PX_delete calls performed. -/
def pxdoc_finalizer (h : Option Doc) : Option Doc × Nat :=
  match h with
  | none => (none, 0)
  | some _ => (none, 1)

/-- Backend-visible outcome of the steps of pxlib_open_file_c that
precede the encryption check: whether PX_new succeeds, whether
PX_open_file succeeds, the header encryption word px_encryption, and
the px_passwd_checksum function of the pxlib backend (px_crypt.h,
external collaborator), kept abstract. -/
structure OpenWorld where
  newOk : Bool
  openOk : Bool
  encryption : Nat
  checksum : String → Nat

/-- Resource events performed by pxlib_open_file_c, in program order. -/
inductive OpenEvent where
  | pxClose
  | pxDelete
  | raiseError (msg : String)
  | warnOpenFail
  deriving DecidableEq

/-- Result of pxlib_open_file_c: a live handle, the R_NilValue returned
after an open failure, or a raised error. -/
inductive OpenOutcome where
  | handle
  | nilValue
  | raised (msg : String)
  deriving DecidableEq

/-- Error message of the missing-password branch (interface.c line 133). -/
def missingPasswordMsg : String :=
  "File is password protected. Provide \x27password\x27 argument."

/-- Error message of the checksum-mismatch branch (interface.c line 143). -/
def wrongPasswordMsg : String := "Incorrect password."

/-- Error message of the PX_new failure branch (interface.c line 115). -/
def pxNewFailMsg : String := "Failed to allocate new pxdoc_t object via PX_new()."

/-- Shallow embedding of pxlib_open_file_c (interface.c lines 84-162)
from PX_new onward, with its resource events in program order.  The
argument-shape validation of the filename and password R arguments
precedes this portion and is not modelled; the password argument is
none when R_NilValue was passed. -/
def pxlib_open_file_c (w : OpenWorld) (password : Option String) :
    OpenOutcome × List OpenEvent :=
  if w.newOk = false then
    (OpenOutcome.raised pxNewFailMsg, [OpenEvent.raiseError pxNewFailMsg])
  else if w.openOk = false then
    (OpenOutcome.nilValue, [OpenEvent.pxDelete, OpenEvent.warnOpenFail])
  else if w.encryption ≠ 0 then
    match password with
    | none =>
      (OpenOutcome.raised missingPasswordMsg,
        [OpenEvent.pxClose, OpenEvent.pxDelete, OpenEvent.raiseError missingPasswordMsg])
    | some pw =>
      if w.checksum pw ≠ w.encryption then
        (OpenOutcome.raised wrongPasswordMsg,
          [OpenEvent.pxClose, OpenEvent.pxDelete, OpenEvent.raiseError wrongPasswordMsg])
      else (OpenOutcome.handle, [])
  else (OpenOutcome.handle, [])

/-- Backend-visible state consumed by pxlib_get_data_c: the record and
field counts, whether PX_get_fields succeeds, the field type codes, and
PX_retrieve_record (none models a NULL return for that record). -/
structure DataWorld where
  numRecords : Int
  numFields : Nat
  fieldsOk : Bool
  fieldType : Nat → Nat
  retrieve : Nat → Option (Nat → PxVal)

/-- Failure of the record loop of pxlib_get_data_c: a NULL return from
PX_retrieve_record at the given zero-based index, or an abnormal exit
inside a decode step (undefined behaviour or a raised error that leaves
the loop). -/
inductive RecErr where
  | retrieveFail (i : Nat)
  | decodeCrash
  deriving DecidableEq

/-- Decoding and placement of one record's values across all fields
(the inner loop of interface.c lines 295-316). -/
def decodeRecord (w : DataWorld) (vals : Nat → PxVal) : Except RecErr (List Cell) :=
  (List.range w.numFields).mapM fun j =>
    match px_to_sexp (vals j) (w.fieldType j) with
    | Except.error _ => Except.error RecErr.decodeCrash
    | Except.ok out => Except.ok (place_value (column_sexptype (w.fieldType j)) out.val)

/-- The record loop of pxlib_get_data_c (interface.c lines 288-319),
processing records i, i+1, ... with the given fuel (the loop runs
exactly num_records iterations). -/
def fillFrom (w : DataWorld) : Nat → Nat → Except RecErr (List (List Cell))
  | 0, _ => Except.ok []
  | fuel + 1, i =>
    match w.retrieve i with
    | none => Except.error (RecErr.retrieveFail i)
    | some vals =>
      match decodeRecord w vals with
      | Except.error e => Except.error e
      | Except.ok row =>
        match fillFrom w fuel (i + 1) with
        | Except.error e => Except.error e
        | Except.ok rest => Except.ok (row :: rest)

/-- Result of pxlib_get_data_c: R_NilValue for an empty file, a raised
error, explicit undefined behaviour from a decode step, or the filled
dataset (record-major: one cell list per record). -/
inductive GetDataResult where
  | nilValue
  | raised (msg : String)
  | crashed
  | dataset (rows : List (List Cell))
  deriving DecidableEq

/-- Error message of the PX_get_fields failure branch (interface.c line 254). -/
def fieldsFailMsg : String := "Could not retrieve field definitions from Paradox file."

/-- Error message of the record-retrieval failure branch (interface.c
line 292), reporting the 1-based record index. -/
def recordFailMsg (oneBased : Nat) : String :=
  "Failed to retrieve record #" ++ toString oneBased ++ "."

/-- Shallow embedding of pxlib_get_data_c (interface.c lines 222-355):
handle validation, the empty-file and missing-fields early returns, and
the record loop.  Column naming and the class attributes attached after
the loop carry no decoded data and are not modelled. -/
def pxlib_get_data_c (h : Option Doc) (w : DataWorld) : GetDataResult :=
  match check_pxdoc_ptr h with
  | Except.error e => GetDataResult.raised e
  | Except.ok _ =>
    if w.numRecords ≤ 0 then GetDataResult.nilValue
    else if w.fieldsOk = false then GetDataResult.raised fieldsFailMsg
    else
      match fillFrom w w.numRecords.toNat 0 with
      | Except.error (RecErr.retrieveFail i) => GetDataResult.raised (recordFailMsg (i + 1))
      | Except.error RecErr.decodeCrash => GetDataResult.crashed
      | Except.ok rows => GetDataResult.dataset rows

/-- Decides whether a decoded record exited abnormally. -/
def isDecodeCrash : Except RecErr (List Cell) → Bool
  | Except.error _ => true
  | Except.ok _ => false

/-- Record k of the world both retrieves and decodes cleanly. -/
def retrieveOk (w : DataWorld) (k : Nat) : Bool :=
  match w.retrieve k with
  | none => false
  | some vals => !(isDecodeCrash (decodeRecord w vals))

/-- A raw value carrying only the long member, as produced by the
backend for the integer, logical, date and time types. -/
def intOnlyVal (l : Int) : PxVal := ⟨false, l, 0, ⟨none, 0⟩⟩

/-- A raw value carrying only the double member, as produced by the
backend for the number, currency and timestamp types. -/
def realOnlyVal (q : ℚ) : PxVal := ⟨false, 0, q, ⟨none, 0⟩⟩

/-- A raw value with the explicit null flag set. -/
def nullVal : PxVal := ⟨true, 0, 0, ⟨none, 0⟩⟩

/-- A raw value carrying a buffer with an explicit length. -/
def strVal (buf : Option (List Nat)) (n : Nat) : PxVal := ⟨false, 0, 0, ⟨buf, n⟩⟩

/-- The seventeen field type codes named by the switches of
interface.c (every case label of px_to_sexp and of the column
allocation switch). -/
def allFieldTypeCodes : List Nat :=
  [pxfAlpha, pxfDate, pxfShort, pxfLong, pxfCurrency, pxfNumber, pxfLogical,
   pxfMemoBLOb, pxfBLOb, pxfFmtMemoBLOb, pxfOLE, pxfGraphic, pxfTime,
   pxfTimestamp, pxfAutoInc, pxfBCD, pxfBytes]

/-- The field type codes whose raw values carry a backend-allocated
buffer in value.str.val. -/
def bufferTypeCodes : List Nat :=
  [pxfAlpha, pxfBCD, pxfMemoBLOb, pxfFmtMemoBLOb, pxfBytes, pxfBLOb, pxfGraphic, pxfOLE]

/-- Concrete backend state for the record-failure example: two records,
one short field, record 0 retrieves and decodes cleanly, record 1 fails
to retrieve. -/
def c9World : DataWorld :=
  ⟨2, 1, true, fun _ => pxfShort,
    fun k => if k = 0 then some (fun _ => intOnlyVal 5) else none⟩

/-- Concrete backend state for the encrypted-open example: allocation
and open succeed, the header reports encryption word 5, and every
password hashes to 0. -/
def c8World : OpenWorld := ⟨true, true, 5, fun _ => 0⟩

/-- Evaluation of px_to_sexp on a long-only value of the date type
as the if-expression of the date arm (interface.c lines 420-433). -/
theorem px_to_sexp_date (d : Int) :
    px_to_sexp (intOnlyVal d) pxfDate =
      (if d ≤ 0 ∨ d > 3000000 then Except.ok ⟨RVal.nil, 0, false⟩
       else Except.ok ⟨RVal.realScalar ((d : ℚ) - 719163), 0, false⟩) := rfl

/-- Evaluation of px_to_sexp on a double-only value of the timestamp
type as the if-expression of the timestamp arm (interface.c lines
438-445). -/
theorem px_to_sexp_timestamp (q : ℚ) :
    px_to_sexp (realOnlyVal q) pxfTimestamp =
      (if q = 0 ∨ q / 1000 < 0 then Except.ok ⟨RVal.nil, 0, false⟩
       else Except.ok ⟨RVal.realScalar (q / 1000 - 719163 * 86400), 0, false⟩) := rfl

/-- C1 (counterexample): calling close_file on an already-closed handle
(backing reference cleared) is not a succeeding no-op: check_pxdoc_ptr
raises the invalid-or-closed-handle error before the close body runs. -/
theorem c1_close_on_cleared_handle_raises :
    pxlib_close_file_c none = Except.error invalidHandleMsg := rfl

/-- C1 (amended): explicit close on a live handle deletes the backend
document once and clears the reference; explicit close on a cleared
handle raises the invalid-or-closed-handle error; the finalizer path is
idempotent, performing no action and no failure on a cleared handle, so
the finalizer may run after explicit close, while a second explicit
close is an error rather than a no-op. -/
theorem c1_close_and_finalizer_lifecycle :
    (∀ d : Doc, pxlib_close_file_c (some d) = Except.ok ((none : Option Doc), 1)) ∧
    pxlib_close_file_c none = Except.error invalidHandleMsg ∧
    (∀ d : Doc, pxdoc_finalizer (some d) = ((none : Option Doc), 1)) ∧
    pxdoc_finalizer none = ((none : Option Doc), 0) :=
  ⟨fun _ => rfl, rfl, fun _ => rfl, rfl⟩

/-- C3: date decoding with the null flag unset is absent exactly when
the stored day count is nonpositive or above 3000000, and otherwise
yields the day count rebased by subtracting 719163; in particular 0, -1
and 3000001 decode to absent and 719163 decodes to day 0. -/
theorem c3_date_decoding (d : Int) :
    (px_to_sexp (intOnlyVal d) pxfDate = Except.ok ⟨RVal.nil, 0, false⟩ ↔
      d ≤ 0 ∨ d > 3000000) ∧
    (¬(d ≤ 0 ∨ d > 3000000) →
      px_to_sexp (intOnlyVal d) pxfDate =
        Except.ok ⟨RVal.realScalar ((d : ℚ) - 719163), 0, false⟩) ∧
    px_to_sexp (intOnlyVal 0) pxfDate = Except.ok ⟨RVal.nil, 0, false⟩ ∧
    px_to_sexp (intOnlyVal (-1)) pxfDate = Except.ok ⟨RVal.nil, 0, false⟩ ∧
    px_to_sexp (intOnlyVal 3000001) pxfDate = Except.ok ⟨RVal.nil, 0, false⟩ ∧
    px_to_sexp (intOnlyVal 719163) pxfDate = Except.ok ⟨RVal.realScalar 0, 0, false⟩ := by
  refine ⟨?_, ?_, ?_, ?_, ?_, ?_⟩
  · rw [px_to_sexp_date d]
    by_cases hc : d ≤ 0 ∨ d > 3000000
    · simp [hc]
    · simp [hc]
  · intro hc
    rw [px_to_sexp_date d, if_neg hc]
  · rw [px_to_sexp_date]; norm_num
  · rw [px_to_sexp_date]; norm_num
  · rw [px_to_sexp_date]; norm_num
  · rw [px_to_sexp_date, if_neg (by norm_num)]; norm_num

/-- C3 (witness): a concrete in-range day count decodes to its rebased
value. -/
theorem c3_date_decoding_witness :
    px_to_sexp (intOnlyVal 100) pxfDate =
      Except.ok ⟨RVal.realScalar (((100 : Int) : ℚ) - 719163), 0, false⟩ :=
  (c3_date_decoding 100).2.1 (by norm_num)

/-- C4: timestamp decoding with the null flag unset is absent exactly
when the raw millisecond count is zero or its conversion to seconds is
negative, and otherwise yields the raw count divided by 1000 and
rebased by 719163 times 86400 seconds; in particular 719163 days of
milliseconds decode to second 0. -/
theorem c4_timestamp_decoding (q : ℚ) :
    (px_to_sexp (realOnlyVal q) pxfTimestamp = Except.ok ⟨RVal.nil, 0, false⟩ ↔
      q = 0 ∨ q / 1000 < 0) ∧
    (¬(q = 0 ∨ q / 1000 < 0) →
      px_to_sexp (realOnlyVal q) pxfTimestamp =
        Except.ok ⟨RVal.realScalar (q / 1000 - 719163 * 86400), 0, false⟩) ∧
    px_to_sexp (realOnlyVal (719163 * 86400 * 1000)) pxfTimestamp =
      Except.ok ⟨RVal.realScalar 0, 0, false⟩ := by
  refine ⟨?_, ?_, ?_⟩
  · rw [px_to_sexp_timestamp q]
    by_cases hc : q = 0 ∨ q / 1000 < 0
    · simp [hc]
    · simp [hc]
  · intro hc
    rw [px_to_sexp_timestamp q, if_neg hc]
  · rw [px_to_sexp_timestamp, if_neg (by norm_num)]
    norm_num

/-- C4 (witness): a concrete positive millisecond count decodes to its
rebased second count. -/
theorem c4_timestamp_decoding_witness :
    px_to_sexp (realOnlyVal 2000) pxfTimestamp =
      Except.ok ⟨RVal.realScalar ((2000 : ℚ) / 1000 - 719163 * 86400), 0, false⟩ :=
  (c4_timestamp_decoding 2000).2.1 (by norm_num)

/-- C6 (code divergence): a bytes value whose buffer holds an embedded
zero byte within the explicit length is not returned as a byte buffer:
mkCharLen raises the embedded-nul error, aborting the decode with the
buffer release skipped; only a zero-free buffer is returned, at exactly
the stored length, and placed as one element of the binary-list
(VECSXP) column. -/
theorem c6_bytes_embedded_nul_diverges :
    px_to_sexp (strVal (some [1, 0, 2]) 3) pxfBytes =
      Except.error (PxAbort.embeddedNulError 0) ∧
    px_to_sexp (strVal (some [1, 2, 3]) 3) pxfBytes =
      Except.ok ⟨RVal.charsxp [1, 2, 3], 1, false⟩ ∧
    column_sexptype pxfBytes = SEXPType.VECSXP ∧
    place_value (column_sexptype pxfBytes) (RVal.charsxp [1, 2, 3]) =
      Cell.vecElem (RVal.charsxp [1, 2, 3]) :=
  ⟨rfl, rfl, rfl, rfl⟩

/-- C7: whenever the explicit null flag of a raw value is set, the
decoder returns absent with no buffer release and no warning,
independent of the field type code and of the payload. -/
theorem c7_null_flag_absent (t : Nat) (v : PxVal) (h : v.isnull = true) :
    px_to_sexp v t = Except.ok ⟨RVal.nil, 0, false⟩ := by
  simp [px_to_sexp, h]

/-- C7 (witness): a null-flagged value of the BCD type decodes to
absent. -/
theorem c7_null_flag_absent_witness :
    px_to_sexp nullVal pxfBCD = Except.ok ⟨RVal.nil, 0, false⟩ :=
  c7_null_flag_absent pxfBCD nullVal rfl

/-- C8: on a successfully opened file whose header reports non-zero
encryption, a missing password or a password whose checksum differs
from the header word makes the open raise, with PX_close and PX_delete
both performed before the error is raised. -/
theorem c8_auth_failure_teardown (w : OpenWorld) (password : Option String)
    (hnew : w.newOk = true) (hopen : w.openOk = true) (henc : w.encryption ≠ 0)
    (hbad : password = none ∨ ∃ p, password = some p ∧ w.checksum p ≠ w.encryption) :
    ∃ msg, pxlib_open_file_c w password =
      (OpenOutcome.raised msg,
        [OpenEvent.pxClose, OpenEvent.pxDelete, OpenEvent.raiseError msg]) := by
  rcases hbad with h | ⟨p, hp, hcs⟩
  · subst h
    exact ⟨missingPasswordMsg, by simp [pxlib_open_file_c, hnew, hopen, henc]⟩
  · subst hp
    exact ⟨wrongPasswordMsg, by simp [pxlib_open_file_c, hnew, hopen, henc, hcs]⟩

/-- C8 (witness): opening the encrypted example world with no password
raises after the teardown events. -/
theorem c8_auth_failure_teardown_witness :
    ∃ msg, pxlib_open_file_c c8World none =
      (OpenOutcome.raised msg,
        [OpenEvent.pxClose, OpenEvent.pxDelete, OpenEvent.raiseError msg]) :=
  c8_auth_failure_teardown c8World none rfl rfl (by decide) (Or.inl rfl)

/-- C10: with the null flag unset, the BCD arm compares the buffer
against the blank sentinel unconditionally, so a null buffer pointer is
dereferenced (undefined behaviour), whereas the fixed-text arm maps a
null buffer to NA and the memo arms map it to absent. -/
theorem c10_bcd_null_buffer_unguarded (n : Nat) :
    px_to_sexp (strVal none n) pxfBCD = Except.error PxAbort.nullDeref ∧
    px_to_sexp (strVal none n) pxfAlpha = Except.ok ⟨RVal.naString, 0, false⟩ ∧
    px_to_sexp (strVal none n) pxfMemoBLOb = Except.ok ⟨RVal.nil, 0, false⟩ ∧
    px_to_sexp (strVal none n) pxfFmtMemoBLOb = Except.ok ⟨RVal.nil, 0, false⟩ :=
  ⟨rfl, rfl, rfl, rfl⟩

/-- C2 (counterexample): a raw value carrying a backend-allocated
buffer whose explicit null flag is set is decoded by the very first
branch of px_to_sexp, which returns absent with zero releases of the
buffer, not one. -/
theorem c2_null_flag_branch_skips_release :
    px_to_sexp ⟨true, 0, 0, ⟨some [65], 1⟩⟩ pxfAlpha =
      Except.ok ⟨RVal.nil, 0, false⟩ := rfl

/-- C2 (amended): for every raw value of a buffer-carrying type code
with the explicit null flag unset and a non-null buffer pointer whose
first len bytes hold no zero byte when the type is memo, formatted memo
or bytes, the decode step releases the buffer exactly once before
returning, on every branch, including the sentinel-match and
zero-length absent branches; the explicit-null-flag branch instead
returns absent without performing any release, and on an embedded-nul
input the raised host error aborts the decode with the release skipped
(zero releases, the buffer leaks). -/
theorem c2_buffer_release_once (v : PxVal) (t : Nat) (buf : List Nat)
    (ht : t ∈ bufferTypeCodes) (hnull : v.isnull = false)
    (hbuf : v.str.val = some buf)
    (hnonul : t = pxfMemoBLOb ∨ t = pxfFmtMemoBLOb ∨ t = pxfBytes →
      (buf.take v.str.len).contains 0 = false) :
    (∃ out, px_to_sexp v t = Except.ok out ∧ out.frees = 1) ∧
    px_to_sexp { v with isnull := true } t = Except.ok ⟨RVal.nil, 0, false⟩ ∧
    px_to_sexp (strVal (some [65, 0]) 2) pxfMemoBLOb =
      Except.error (PxAbort.embeddedNulError 0) := by
  refine ⟨?_, by simp [px_to_sexp], rfl⟩
  simp only [bufferTypeCodes, List.mem_cons, List.not_mem_nil, or_false] at ht
  rcases ht with h | h | h | h | h | h | h | h <;> subst h
  · exact ⟨⟨RVal.charsxp (cstr buf), 1, false⟩,
      by simp [px_to_sexp, hnull, hbuf, pxfAlpha], rfl⟩
  · by_cases hs : cstr buf = bcdBlankSentinel
    · exact ⟨⟨RVal.nil, 1, false⟩,
        by simp [px_to_sexp, hnull, hbuf, hs, pxfAlpha, pxfBCD], rfl⟩
    · exact ⟨⟨RVal.charsxp (cstr buf), 1, false⟩,
        by simp [px_to_sexp, hnull, hbuf, hs, pxfAlpha, pxfBCD], rfl⟩
  · have hc : 0 ∉ buf.take v.str.len := by simpa using hnonul (Or.inl rfl)
    exact ⟨⟨RVal.charsxp (buf.take v.str.len), 1, false⟩,
      by simp [px_to_sexp, hnull, hbuf, hc, pxfAlpha, pxfBCD, pxfMemoBLOb], rfl⟩
  · have hc : 0 ∉ buf.take v.str.len := by simpa using hnonul (Or.inr (Or.inl rfl))
    exact ⟨⟨RVal.charsxp (buf.take v.str.len), 1, false⟩,
      by simp [px_to_sexp, hnull, hbuf, hc, pxfAlpha, pxfBCD, pxfMemoBLOb,
        pxfFmtMemoBLOb], rfl⟩
  · have hc : 0 ∉ buf.take v.str.len := by simpa using hnonul (Or.inr (Or.inr rfl))
    exact ⟨⟨RVal.charsxp (buf.take v.str.len), 1, false⟩,
      by simp [px_to_sexp, hnull, hbuf, hc, pxfAlpha, pxfBCD, pxfMemoBLOb,
        pxfFmtMemoBLOb, pxfBytes], rfl⟩
  · by_cases hl : v.str.len = 0
    · exact ⟨⟨RVal.nil, 1, false⟩,
        by simp [px_to_sexp, hnull, hbuf, hl, pxfAlpha, pxfBCD, pxfMemoBLOb,
          pxfFmtMemoBLOb, pxfBytes, pxfBLOb], rfl⟩
    · exact ⟨⟨RVal.rawvec (buf.take v.str.len), 1, false⟩,
        by simp [px_to_sexp, hnull, hbuf, hl, pxfAlpha, pxfBCD, pxfMemoBLOb,
          pxfFmtMemoBLOb, pxfBytes, pxfBLOb], rfl⟩
  · by_cases hl : v.str.len = 0
    · exact ⟨⟨RVal.nil, 1, false⟩,
        by simp [px_to_sexp, hnull, hbuf, hl, pxfAlpha, pxfBCD, pxfMemoBLOb,
          pxfFmtMemoBLOb, pxfBytes, pxfBLOb, pxfGraphic], rfl⟩
    · exact ⟨⟨RVal.rawvec (buf.take v.str.len), 1, false⟩,
        by simp [px_to_sexp, hnull, hbuf, hl, pxfAlpha, pxfBCD, pxfMemoBLOb,
          pxfFmtMemoBLOb, pxfBytes, pxfBLOb, pxfGraphic], rfl⟩
  · by_cases hl : v.str.len = 0
    · exact ⟨⟨RVal.nil, 1, false⟩,
        by simp [px_to_sexp, hnull, hbuf, hl, pxfAlpha, pxfBCD, pxfMemoBLOb,
          pxfFmtMemoBLOb, pxfBytes, pxfBLOb, pxfGraphic, pxfOLE], rfl⟩
    · exact ⟨⟨RVal.rawvec (buf.take v.str.len), 1, false⟩,
        by simp [px_to_sexp, hnull, hbuf, hl, pxfAlpha, pxfBCD, pxfMemoBLOb,
          pxfFmtMemoBLOb, pxfBytes, pxfBLOb, pxfGraphic, pxfOLE], rfl⟩

/-- C2 (witness): a concrete fixed-text value with a live buffer is
released exactly once, and the embedded-nul memo input aborts with no
release. -/
theorem c2_buffer_release_once_witness :
    (∃ out, px_to_sexp (strVal (some [65]) 1) pxfAlpha = Except.ok out ∧ out.frees = 1) ∧
    px_to_sexp { strVal (some [65]) 1 with isnull := true } pxfAlpha =
      Except.ok ⟨RVal.nil, 0, false⟩ ∧
    px_to_sexp (strVal (some [65, 0]) 2) pxfMemoBLOb =
      Except.error (PxAbort.embeddedNulError 0) :=
  c2_buffer_release_once (strVal (some [65]) 1) pxfAlpha [65] (by decide) rfl rfl (by decide)

/-- C5 (counterexample): short, long and autoincrement fields are
allocated as INTSXP columns, whose elements are 32-bit C int values,
not a 64-bit-or-wider integer category; accordingly the implicit long
to int narrowing at ScalarInteger wraps the in-range-for-64-bit value
2 to the 31st to its negative. -/
theorem c5_int_columns_are_32_bit :
    column_sexptype pxfLong = SEXPType.INTSXP ∧
    SEXPType.elemBits (column_sexptype pxfLong) = some 32 ∧
    px_to_sexp (intOnlyVal (2 ^ 31)) pxfLong =
      Except.ok ⟨RVal.intScalar (-(2 ^ 31)), 0, false⟩ := by
  refine ⟨rfl, rfl, ?_⟩
  simp only [px_to_sexp, intOnlyVal, pxfAlpha, pxfBCD, pxfMemoBLOb, pxfFmtMemoBLOb,
    pxfBytes, pxfBLOb, pxfGraphic, pxfOLE, pxfShort, pxfLong, pxfAutoInc]
  norm_num [wrap32]

/-- C5 (amended): the type mapper allocates one column per field by the
fixed classification, with the three integer codes mapped to the host's
native 32-bit integer category: short, long, autoincrement to INTSXP;
number, currency, date, time, timestamp to REALSXP; logical to LGLSXP;
fixed text, BCD, memo, formatted memo to STRSXP; bytes, OLE, graphic,
blob to VECSXP; and every unrecognized type code falls back to the text
category, with the decoder emitting a warning and an absent value
rather than an error. -/
theorem c5_type_mapper (t : Nat) (v : PxVal)
    (ht : t ∉ allFieldTypeCodes) (hv : v.isnull = false) :
    (column_sexptype pxfShort = SEXPType.INTSXP ∧
     column_sexptype pxfLong = SEXPType.INTSXP ∧
     column_sexptype pxfAutoInc = SEXPType.INTSXP ∧
     column_sexptype pxfNumber = SEXPType.REALSXP ∧
     column_sexptype pxfCurrency = SEXPType.REALSXP ∧
     column_sexptype pxfDate = SEXPType.REALSXP ∧
     column_sexptype pxfTime = SEXPType.REALSXP ∧
     column_sexptype pxfTimestamp = SEXPType.REALSXP ∧
     column_sexptype pxfLogical = SEXPType.LGLSXP ∧
     column_sexptype pxfAlpha = SEXPType.STRSXP ∧
     column_sexptype pxfBCD = SEXPType.STRSXP ∧
     column_sexptype pxfMemoBLOb = SEXPType.STRSXP ∧
     column_sexptype pxfFmtMemoBLOb = SEXPType.STRSXP ∧
     column_sexptype pxfBytes = SEXPType.VECSXP ∧
     column_sexptype pxfOLE = SEXPType.VECSXP ∧
     column_sexptype pxfGraphic = SEXPType.VECSXP ∧
     column_sexptype pxfBLOb = SEXPType.VECSXP) ∧
    column_sexptype t = SEXPType.STRSXP ∧
    px_to_sexp v t = Except.ok ⟨RVal.nil, 0, true⟩ := by
  simp only [allFieldTypeCodes, List.mem_cons, List.not_mem_nil, or_false, not_or] at ht
  obtain ⟨h1, h2, h3, h4, h5, h6, h7, h8, h9, h10, h11, h12, h13, h14, h15, h16, h17⟩ := ht
  refine ⟨⟨rfl, rfl, rfl, rfl, rfl, rfl, rfl, rfl, rfl, rfl, rfl, rfl, rfl, rfl, rfl, rfl,
    rfl⟩, ?_, ?_⟩
  · simp [column_sexptype, h1, h2, h3, h4, h5, h6, h7, h8, h9, h10, h11, h12, h13, h14,
      h15, h16, h17]
  · simp [px_to_sexp, hv, h1, h2, h3, h4, h5, h6, h7, h8, h9, h10, h11, h12, h13, h14,
      h15, h16, h17]

/-- C5 (witness): the out-of-range type code 99 maps to a text column
and decodes to an absent value with a warning. -/
theorem c5_type_mapper_witness :
    column_sexptype 99 = SEXPType.STRSXP ∧
    px_to_sexp (intOnlyVal 0) 99 = Except.ok ⟨RVal.nil, 0, true⟩ := by
  have h := c5_type_mapper 99 (intOnlyVal 0) (by decide) rfl
  exact ⟨h.2.1, h.2.2⟩

/-- A record-loop run whose first retrieval failure is at offset i from
the start index stops with exactly that failure (helper for the
record-retrieval claim). -/
theorem fillFrom_first_failure (w : DataWorld) :
    ∀ (i fuel s : Nat), i < fuel → w.retrieve (s + i) = none →
      (∀ k, k < i → retrieveOk w (s + k) = true) →
      fillFrom w fuel s = Except.error (RecErr.retrieveFail (s + i)) := by
  intro i
  induction i with
  | zero =>
    intro fuel s hfu hfail _
    obtain ⟨f, rfl⟩ : ∃ f, fuel = f + 1 := ⟨fuel - 1, by omega⟩
    rw [Nat.add_zero] at hfail
    simp [fillFrom, hfail]
  | succ n ih =>
    intro fuel s hfu hfail hok
    obtain ⟨f, rfl⟩ : ∃ f, fuel = f + 1 := ⟨fuel - 1, by omega⟩
    have h0 : retrieveOk w s = true := by
      have h := hok 0 (Nat.succ_pos n)
      rwa [Nat.add_zero] at h
    cases hr : w.retrieve s with
    | none => simp [retrieveOk, hr] at h0
    | some vals =>
      cases hd : decodeRecord w vals with
      | error e => simp [retrieveOk, hr, hd, isDecodeCrash] at h0
      | ok row =>
        have hrec : fillFrom w f (s + 1) = Except.error (RecErr.retrieveFail (s + 1 + n)) := by
          apply ih f (s + 1) (by omega)
          · rw [show s + 1 + n = s + (n + 1) by omega]
            exact hfail
          · intro k hk
            rw [show s + 1 + k = s + (k + 1) by omega]
            exact hok (k + 1) (by omega)
        rw [show s + (n + 1) = s + 1 + n by omega]
        simp [fillFrom, hr, hd, hrec]

/-- C9: on a live handle with a positive record count, if the first
failing record retrieval is at zero-based index i, the whole get_data
call raises the error naming the 1-based index i+1 and returns no
dataset, partial or otherwise. -/
theorem c9_retrieval_failure_aborts (d : Doc) (w : DataWorld) (i : Nat)
    (hn : 0 < w.numRecords) (hf : w.fieldsOk = true)
    (hi : i < w.numRecords.toNat)
    (hfail : w.retrieve i = none)
    (hok : ∀ k, k < i → retrieveOk w k = true) :
    pxlib_get_data_c (some d) w = GetDataResult.raised (recordFailMsg (i + 1)) ∧
    ∀ rows, pxlib_get_data_c (some d) w ≠ GetDataResult.dataset rows := by
  have hfill : fillFrom w w.numRecords.toNat 0 = Except.error (RecErr.retrieveFail i) := by
    have h := fillFrom_first_failure w i w.numRecords.toNat 0 hi
      (by rw [Nat.zero_add]; exact hfail)
      (fun k hk => by rw [Nat.zero_add]; exact hok k hk)
    rwa [Nat.zero_add] at h
  have hn2 : ¬(w.numRecords ≤ 0) := by omega
  have hmain : pxlib_get_data_c (some d) w = GetDataResult.raised (recordFailMsg (i + 1)) := by
    simp [pxlib_get_data_c, check_pxdoc_ptr, hn2, hf, hfill]
  refine ⟨hmain, fun rows h => ?_⟩
  rw [hmain] at h
  simp at h

/-- C9 (witness): in the two-record example world whose second record
fails to retrieve, get_data raises the error naming record 2 and
returns no dataset. -/
theorem c9_retrieval_failure_aborts_witness :
    pxlib_get_data_c (some 0) c9World =
      GetDataResult.raised "Failed to retrieve record #2." ∧
    ∀ rows, pxlib_get_data_c (some 0) c9World ≠ GetDataResult.dataset rows := by
  have hok : ∀ k, k < 1 → retrieveOk c9World k = true := by
    intro k hk
    have hk0 : k = 0 := by omega
    subst hk0
    decide
  have h := c9_retrieval_failure_aborts 0 c9World 1 (by decide) rfl (by decide) rfl hok
  refine ⟨?_, h.2⟩
  rw [h.1]
  rfl

end Rparadox
